import Mathlib

/-!
Shallow embedding of `6-3.LlamaIndex_Streamlit_Chat.py`, a Streamlit RAG chat
application.  Bytes are modelled as `Nat` values (< 256 in practice), decoded
text as lists of Unicode code points (`Nat`).  The external services the script
calls — the PDF extraction service (`PDFReader.load_data`) and the language
model behind `chat_engine.chat` — are opaque in the source, so they enter the
embedding as function parameters; everything else is translated directly from
the Python source.  The filesystem visible to the script is modelled as the
list of file names currently existing (only `temp_*` staging files are ever
created or removed by the script).
-/

namespace LlamaChat

/-- A continuation byte of a UTF-8 sequence: `0x80 ≤ b < 0xC0`. -/
def contByte (b : Nat) : Bool := decide (0x80 ≤ b ∧ b < 0xC0)

/-- Strict UTF-8 decoding of a byte list into a list of Unicode code points,
as Python's `bytes.decode('utf-8')` performs it: rejects truncated sequences,
stray continuation bytes, overlong encodings, surrogate code points and values
above `0x10FFFF`; `none` models the raised `UnicodeDecodeError`. -/
def utf8Decode : List Nat → Option (List Nat)
  | [] => some []
  | b :: bs =>
    if b < 0x80 then (utf8Decode bs).map (fun r => b :: r)
    else if 0xC2 ≤ b ∧ b ≤ 0xDF then
      match bs with
      | b1 :: bs2 =>
        if contByte b1 then
          (utf8Decode bs2).map (fun r => ((b - 0xC0) * 0x40 + (b1 - 0x80)) :: r)
        else none
      | [] => none
    else if 0xE0 ≤ b ∧ b ≤ 0xEF then
      match bs with
      | b1 :: b2 :: bs3 =>
        if contByte b1 ∧ contByte b2 then
          if (b - 0xE0) * 0x1000 + (b1 - 0x80) * 0x40 + (b2 - 0x80) < 0x800 ∨
             (0xD800 ≤ (b - 0xE0) * 0x1000 + (b1 - 0x80) * 0x40 + (b2 - 0x80) ∧
              (b - 0xE0) * 0x1000 + (b1 - 0x80) * 0x40 + (b2 - 0x80) ≤ 0xDFFF) then none
          else (utf8Decode bs3).map (fun r =>
            ((b - 0xE0) * 0x1000 + (b1 - 0x80) * 0x40 + (b2 - 0x80)) :: r)
        else none
      | _ => none
    else if 0xF0 ≤ b ∧ b ≤ 0xF4 then
      match bs with
      | b1 :: b2 :: b3 :: bs4 =>
        if contByte b1 ∧ contByte b2 ∧ contByte b3 then
          if (b - 0xF0) * 0x40000 + (b1 - 0x80) * 0x1000 + (b2 - 0x80) * 0x40 + (b3 - 0x80)
               < 0x10000 ∨
             0x10FFFF < (b - 0xF0) * 0x40000 + (b1 - 0x80) * 0x1000 + (b2 - 0x80) * 0x40 +
               (b3 - 0x80) then none
          else (utf8Decode bs4).map (fun r =>
            ((b - 0xF0) * 0x40000 + (b1 - 0x80) * 0x1000 + (b2 - 0x80) * 0x40 + (b3 - 0x80)) :: r)
        else none
      | _ => none
    else none

/-- An uploaded file as Streamlit's uploader hands it to the script:
`file.name`, `file.type` (declared MIME type) and the byte content returned
by `file.read()`. -/
structure UploadedFile where
  name : String
  type : String
  content : List Nat
deriving DecidableEq, Repr

/-- A LlamaIndex `Document(text=..., metadata={"filename": ...})`.  The script
only ever sets the `filename` metadata key, so metadata is modelled by that
single field; `text` is the decoded code-point list. -/
structure Document where
  text : List Nat
  filename : String
deriving DecidableEq, Repr

/-- A per-file error surfaced through `st.error` inside
`process_uploaded_files`: either the unsupported-type message (line 53) or the
catch-all message of the `except` clause (line 56) carrying `str(e)`. -/
inductive FileError where
  | unsupportedType (filename : String)
  | processingError (filename : String) (msg : String)
deriving DecidableEq, Repr

/-- The opaque PDF extraction service `PDFReader().load_data(path)`.  The path
it receives always holds exactly the bytes the script just wrote, so the
service is modelled as a function of those bytes; `Except.error` models the
exception it may raise. -/
abbrev PdfExtract := List Nat → Except String (List Document)

/-- Result of the loader: the `documents` list it returns, the sequence of
per-file `st.error` reports, and the filesystem (list of existing file names)
after the call. -/
structure LoaderResult where
  documents : List Document
  errors : List FileError
  fs : List String
deriving DecidableEq, Repr

/-- `open(f"temp_{name}", "wb")` followed by `f.write(content)`: the file now
exists (content is irrelevant to the claims, so the filesystem tracks names). -/
def fsWrite (name : String) (fs : List String) : List String :=
  if name ∈ fs then fs else name :: fs

/-- `os.remove(name)`: the file no longer exists. -/
def fsRemove (name : String) (fs : List String) : List String :=
  fs.erase name

/-- The body of the `for file in uploaded_files` loop of
`process_uploaded_files` (lines 32–56), for one file: dispatch on `file.type`;
`text/plain` decodes UTF-8 and appends one `Document`; `application/pdf`
writes `temp_<name>`, extracts, appends the extracted documents and removes
the temp file — but when extraction raises, control jumps to the `except`
clause and the `os.remove` on line 51 is never executed, so the temp file
stays; other types report an unsupported-type error. -/
def processOneFile (ex : PdfExtract) (f : UploadedFile) (fs : List String) : LoaderResult :=
  if f.type = "text/plain" then
    match utf8Decode f.content with
    | some t => ⟨[⟨t, f.name⟩], [], fs⟩
    | none => ⟨[], [FileError.processingError f.name "UnicodeDecodeError"], fs⟩
  else if f.type = "application/pdf" then
    match ex f.content with
    | Except.ok ds => ⟨ds, [], fsRemove ("temp_" ++ f.name) (fsWrite ("temp_" ++ f.name) fs)⟩
    | Except.error e =>
        ⟨[], [FileError.processingError f.name e], fsWrite ("temp_" ++ f.name) fs⟩
  else
    ⟨[], [FileError.unsupportedType f.name], fs⟩

/-- `process_uploaded_files(uploaded_files)` (lines 27–58): folds
`processOneFile` over the batch, accumulating `documents` with
`append`/`extend` in input order and threading the filesystem. -/
def process_uploaded_files (ex : PdfExtract) : List UploadedFile → List String → LoaderResult
  | [], fs => ⟨[], [], fs⟩
  | f :: rest, fs =>
    let s := processOneFile ex f fs
    let r := process_uploaded_files ex rest s.fs
    ⟨s.documents ++ r.documents, s.errors ++ r.errors, r.fs⟩

/-- `VectorStoreIndex.from_documents(documents)` (line 99): the index service
is opaque; the model records exactly the documents the index was built over. -/
structure Index where
  documents : List Document
deriving DecidableEq, Repr

def vectorStoreIndexFromDocuments (docs : List Document) : Index := ⟨docs⟩

/-- The chat engine returned by `index.as_chat_engine(...)` in
`initialize_chat_engine` (lines 60–70): it wraps the index together with the
fixed configuration passed at construction. -/
structure ChatEngine where
  index : Index
  chat_mode : String
  verbose : Bool
  system_prompt : String
deriving DecidableEq, Repr

/-- `initialize_chat_engine(index)` (lines 60–70). -/
def initialize_chat_engine (index : Index) : ChatEngine :=
  ⟨index, "condense_plus_context", true,
   "당신은 업로드된 문서를 기반으로 답변하는 AI 어시스턴트입니다."⟩

/-- One entry of `st.session_state.messages`: a dict
`{"role": ..., "content": ...}`. -/
structure Message where
  role : String
  content : String
deriving DecidableEq, Repr

/-- The per-session Streamlit state the script uses: `st.session_state.messages`
(`none` before the `if "messages" not in st.session_state` init has ever run)
and `st.session_state.chat_engine` (`none` until a batch is indexed). -/
structure SessionState where
  messages : Option (List Message)
  chat_engine : Option ChatEngine
deriving DecidableEq, Repr

/-- The opaque language-model call `st.session_state.chat_engine.chat(prompt)`;
`Except.error` models the exception raised on upstream failure, `Except.ok`
carries `response.response`. -/
abbrev ChatFn := ChatEngine → String → Except String String

/-- The user-turn block of `main` (lines 118–130), given the transcript at
entry: append `{"role": "user", "content": prompt}` (line 119), then call
`chat_engine.chat(prompt)`; on success append the assistant entry (lines
128–130) and return the answer; when the call raises, the exception
propagates out of `main` with the user entry already appended, so the
returned transcript keeps it and no assistant entry follows. -/
def chatTurn (chat : ChatFn) (engine : ChatEngine) (msgs : List Message)
    (prompt : String) : List Message × Option String :=
  match chat engine prompt with
  | Except.ok ans =>
      ((msgs ++ [⟨"user", prompt⟩]) ++ [⟨"assistant", ans⟩], some ans)
  | Except.error _ => (msgs ++ [⟨"user", prompt⟩], none)

/-- Outcome of the chat section of `main` (lines 115–137): the session state
afterwards, whether the chat input box was offered (the `if "chat_engine" in
st.session_state` branch, as opposed to the `st.info` branch on line 137),
and whether the turn raised (in which case the script run aborts before the
reset button is processed). -/
structure ChatSectionResult where
  session : SessionState
  inputOffered : Bool
  turnFailed : Bool
deriving DecidableEq, Repr

/-- The chat section of `main` (lines 115–137): only when
`"chat_engine" in st.session_state` is the chat input offered; a submitted
prompt then runs the turn block over the current transcript.  With no engine,
line 137 shows an info message and nothing changes. -/
def chatSection (chat : ChatFn) (s : SessionState) (prompt : Option String) :
    ChatSectionResult :=
  match s.chat_engine with
  | some engine =>
      match prompt with
      | some p =>
          let r := chatTurn chat engine (s.messages.getD []) p
          ⟨{ s with messages := some r.1 }, true, r.2.isNone⟩
      | none => ⟨s, true, false⟩
  | none => ⟨s, false, false⟩

/-- Outcome of the upload section of `main` (lines 89–104): the session state
and filesystem afterwards, and whether the `documents`-empty branch (lines
102–104) showed its error and returned early from `main`. -/
structure UploadResult where
  session : SessionState
  fs : List String
  noDocsError : Bool
deriving DecidableEq, Repr

/-- The upload section of `main` (lines 89–104): with no uploaded files,
nothing happens; otherwise the batch is processed, and either the engine over
the new index is stored in `st.session_state.chat_engine` (lines 99–100) or,
when zero documents came back, an error is shown and `main` returns (lines
102–104). -/
def uploadSection (ex : PdfExtract) (files : List UploadedFile) (s : SessionState)
    (fs : List String) : UploadResult :=
  if files.isEmpty then ⟨s, fs, false⟩
  else
    let r := process_uploaded_files ex files fs
    if r.documents.isEmpty then ⟨s, r.fs, true⟩
    else
      let engine := initialize_chat_engine (vectorStoreIndexFromDocuments r.documents)
      ⟨{ s with chat_engine := some engine }, r.fs, false⟩

/-- The reset-button handler (lines 140–142): `st.session_state.messages = []`
followed by `st.rerun()` (the rerun itself is the next `main` invocation). -/
def resetChat (s : SessionState) : SessionState :=
  { s with messages := some [] }

/-- The per-run inputs of one Streamlit script run of `main`: whether an API
key is present in the sidebar, the currently uploaded files (`[]` when the
uploader is empty), the submitted chat prompt (`none` when no input was
submitted this run), and whether the reset button was clicked. -/
structure RunInput where
  apiKey : Bool
  files : List UploadedFile
  prompt : Option String
  resetClicked : Bool

/-- One script run of `main` (lines 72–142) over the persistent session state
and filesystem: early return without an API key (lines 76–78); upload section
with its early return on an empty document set (line 104); the
`st.session_state.messages` init (lines 107–108); the chat section, whose
raised exception aborts the run before the reset button; and the reset
button. -/
def main (ex : PdfExtract) (chat : ChatFn) (inp : RunInput) (s : SessionState)
    (fs : List String) : SessionState × List String :=
  if inp.apiKey = false then (s, fs)
  else
    let u := uploadSection ex inp.files s fs
    if u.noDocsError then (u.session, u.fs)
    else
      let s1 := if u.session.messages = none then
                  { u.session with messages := some [] } else u.session
      let c := chatSection chat s1 inp.prompt
      if c.turnFailed then (c.session, u.fs)
      else if inp.resetClicked then (resetChat c.session, u.fs)
      else (c.session, u.fs)

/-- Session states and filesystems reachable by a fresh Streamlit session
running `main` any number of times with arbitrary per-run inputs: the session
starts with neither `messages` nor `chat_engine` set. -/
inductive Reachable (ex : PdfExtract) (chat : ChatFn) :
    SessionState → List String → Prop where
  | init (fs0 : List String) : Reachable ex chat ⟨none, none⟩ fs0
  | step (inp : RunInput) (s : SessionState) (fs : List String) :
      Reachable ex chat s fs →
      Reachable ex chat (main ex chat inp s fs).1 (main ex chat inp s fs).2

/-- The per-file document yield as claim C10 words it: one `Document` holding
the decoded text for a successful `plain_text` file, the extraction service's
documents for a successful `pdf` file, and nothing for a failed or unsupported
file.  Stated independently of the loader loop so that the loader can be
proved equal to the in-order concatenation of these per-file results. -/
def perFileDocs (ex : PdfExtract) (f : UploadedFile) : List Document :=
  if f.type = "text/plain" then
    match utf8Decode f.content with
    | some t => [⟨t, f.name⟩]
    | none => []
  else if f.type = "application/pdf" then
    match ex f.content with
    | Except.ok ds => ds
    | Except.error _ => []
  else []

/-- The per-file error yield, stated per file: one decode error for an invalid
`plain_text` file, one extraction error for a failed `pdf` file, one
unsupported-type error otherwise, and nothing for a successful file. -/
def perFileErrs (ex : PdfExtract) (f : UploadedFile) : List FileError :=
  if f.type = "text/plain" then
    match utf8Decode f.content with
    | some _ => []
    | none => [FileError.processingError f.name "UnicodeDecodeError"]
  else if f.type = "application/pdf" then
    match ex f.content with
    | Except.ok _ => []
    | Except.error e => [FileError.processingError f.name e]
  else [FileError.unsupportedType f.name]

/-- The three per-file failure modes named by claim C5: a `plain_text` file
whose bytes are not valid UTF-8, a `pdf` file whose extraction call raises,
or a file of any other declared type. -/
def fileFails (ex : PdfExtract) (f : UploadedFile) : Prop :=
  (f.type = "text/plain" ∧ utf8Decode f.content = none) ∨
  (f.type = "application/pdf" ∧ ∃ e, ex f.content = Except.error e) ∨
  (f.type ≠ "text/plain" ∧ f.type ≠ "application/pdf")

/-- Modelled from the spec: a Chunk is "a sub-span of a Document's text with a
back-reference to its source Document" (§3).  The Chunker/Indexer and the
Retriever are external services (`VectorStoreIndex` internals), absent from
the source. -/
structure Chunk where
  text : List Nat
  source : Document

/-- Modelled from the spec: a conforming retriever, `retrieve(index, query,
top_k)`, "returns the top-relevant chunks from the index" (§2, §4.3) — every
chunk it returns is a chunk of one of the index's documents.  Relevance
scores and ordering are irrelevant to the provenance property and omitted. -/
def RetrieverConforms (retrieve : Index → String → Nat → List Chunk) : Prop :=
  ∀ idx q k c, c ∈ retrieve idx q k → c.source ∈ idx.documents

theorem processOneFile_documents (ex : PdfExtract) (f : UploadedFile) (fs : List String) :
    (processOneFile ex f fs).documents = perFileDocs ex f := by
  unfold processOneFile perFileDocs
  split_ifs
  · cases utf8Decode f.content <;> rfl
  · cases ex f.content <;> rfl
  · rfl

theorem processOneFile_errors (ex : PdfExtract) (f : UploadedFile) (fs : List String) :
    (processOneFile ex f fs).errors = perFileErrs ex f := by
  unfold processOneFile perFileErrs
  split_ifs
  · cases utf8Decode f.content <;> rfl
  · cases ex f.content <;> rfl
  · rfl

theorem process_uploaded_files_documents (ex : PdfExtract) (files : List UploadedFile) :
    ∀ fs, (process_uploaded_files ex files fs).documents = files.flatMap (perFileDocs ex) := by
  induction files with
  | nil => intro fs; rfl
  | cons f rest ih =>
    intro fs
    show (processOneFile ex f fs).documents ++
        (process_uploaded_files ex rest (processOneFile ex f fs).fs).documents = _
    rw [processOneFile_documents, ih, List.flatMap_cons]

theorem process_uploaded_files_errors (ex : PdfExtract) (files : List UploadedFile) :
    ∀ fs, (process_uploaded_files ex files fs).errors = files.flatMap (perFileErrs ex) := by
  induction files with
  | nil => intro fs; rfl
  | cons f rest ih =>
    intro fs
    show (processOneFile ex f fs).errors ++
        (process_uploaded_files ex rest (processOneFile ex f fs).fs).errors = _
    rw [processOneFile_errors, ih, List.flatMap_cons]

theorem fileFails_perFileDocs (ex : PdfExtract) (f : UploadedFile)
    (h : fileFails ex f) : perFileDocs ex f = [] := by
  unfold perFileDocs
  rcases h with ⟨ht, hd⟩ | ⟨ht, e, he⟩ | ⟨ht1, ht2⟩
  · rw [if_pos ht, hd]
  · have : ¬ f.type = "text/plain" := by rw [ht]; decide
    rw [if_neg this, if_pos ht, he]
  · rw [if_neg ht1, if_neg ht2]

theorem fileFails_perFileErrs (ex : PdfExtract) (f : UploadedFile)
    (h : fileFails ex f) : ∃ err, perFileErrs ex f = [err] := by
  unfold perFileErrs
  rcases h with ⟨ht, hd⟩ | ⟨ht, e, he⟩ | ⟨ht1, ht2⟩
  · rw [if_pos ht, hd]
    exact ⟨_, rfl⟩
  · have : ¬ f.type = "text/plain" := by rw [ht]; decide
    rw [if_neg this, if_pos ht, he]
    exact ⟨_, rfl⟩
  · rw [if_neg ht1, if_neg ht2]
    exact ⟨_, rfl⟩

/-- C10: the Document Loader preserves input order — for every batch, the
returned Document list is the concatenation, in the order of the input files,
of the per-file results (one Document for each successful plain_text file,
that file's extracted Documents contiguously for each successful pdf file,
and nothing for a failed or unsupported file). -/
theorem loader_preserves_input_order (ex : PdfExtract) (files : List UploadedFile)
    (fs : List String) :
    (process_uploaded_files ex files fs).documents = files.flatMap (perFileDocs ex) :=
  process_uploaded_files_documents ex files fs

/-- C5: a failure processing one file of a batch (invalid UTF-8 in a
plain_text file, extraction failure for a pdf, or an unsupported declared
type) yields no Document for that file, is recorded as exactly one per-file
error, and never aborts the remaining files: the documents of the batch are
the same as if the failing file were absent, and every other file's errors
are likewise preserved. -/
theorem per_file_failure_isolated (ex : PdfExtract) (l1 l2 : List UploadedFile)
    (bad : UploadedFile) (fs fs' : List String) (h : fileFails ex bad) :
    (process_uploaded_files ex (l1 ++ bad :: l2) fs).documents =
      (process_uploaded_files ex (l1 ++ l2) fs').documents ∧
    perFileDocs ex bad = [] ∧
    (∃ err, perFileErrs ex bad = [err]) ∧
    (process_uploaded_files ex (l1 ++ bad :: l2) fs).errors =
      (process_uploaded_files ex l1 fs).errors ++ perFileErrs ex bad ++
        (process_uploaded_files ex l2 fs).errors := by
  have hdocs := fileFails_perFileDocs ex bad h
  refine ⟨?_, hdocs, fileFails_perFileErrs ex bad h, ?_⟩
  · rw [process_uploaded_files_documents, process_uploaded_files_documents,
      List.flatMap_append, List.flatMap_append, List.flatMap_cons, hdocs]
    simp
  · rw [process_uploaded_files_errors, process_uploaded_files_errors,
      process_uploaded_files_errors, List.flatMap_append, List.flatMap_cons,
      List.append_assoc]

theorem per_file_failure_isolated_witness :
    fileFails (fun _ => Except.ok []) ⟨"c.png", "image/png", []⟩ ∧
    ((process_uploaded_files (fun _ => Except.ok [])
        ([⟨"a.txt", "text/plain", [104]⟩] ++ ⟨"c.png", "image/png", []⟩ ::
          [⟨"b.txt", "text/plain", [105]⟩]) []).documents =
      (process_uploaded_files (fun _ => Except.ok [])
        ([⟨"a.txt", "text/plain", [104]⟩] ++ [⟨"b.txt", "text/plain", [105]⟩]) []).documents ∧
    perFileDocs (fun _ => Except.ok []) ⟨"c.png", "image/png", []⟩ = [] ∧
    (∃ err, perFileErrs (fun _ => Except.ok []) ⟨"c.png", "image/png", []⟩ = [err]) ∧
    (process_uploaded_files (fun _ => Except.ok [])
        ([⟨"a.txt", "text/plain", [104]⟩] ++ ⟨"c.png", "image/png", []⟩ ::
          [⟨"b.txt", "text/plain", [105]⟩]) []).errors =
      (process_uploaded_files (fun _ => Except.ok []) [⟨"a.txt", "text/plain", [104]⟩] []).errors ++
        perFileErrs (fun _ => Except.ok []) ⟨"c.png", "image/png", []⟩ ++
        (process_uploaded_files (fun _ => Except.ok []) [⟨"b.txt", "text/plain", [105]⟩] []).errors) := by
  have h : fileFails (fun _ => Except.ok []) ⟨"c.png", "image/png", []⟩ :=
    Or.inr (Or.inr ⟨by decide, by decide⟩)
  exact ⟨h, per_file_failure_isolated (fun _ => Except.ok [])
    [⟨"a.txt", "text/plain", [104]⟩] [⟨"b.txt", "text/plain", [105]⟩]
    ⟨"c.png", "image/png", []⟩ [] [] h⟩

/-- C2 counterexample: a plain_text file whose bytes decode to the empty
string does produce a Document — with empty text — and no error entry, so the
loader's output does not satisfy "every returned Document has non-empty
text"; no `EmptyDocumentError` is ever reported. -/
theorem empty_text_document_is_returned :
    (process_uploaded_files (fun _ => Except.ok [])
        [⟨"empty.txt", "text/plain", []⟩] []).documents = [⟨[], "empty.txt"⟩] ∧
    (⟨[], "empty.txt"⟩ : Document).text = [] ∧
    (process_uploaded_files (fun _ => Except.ok [])
        [⟨"empty.txt", "text/plain", []⟩] []).errors = [] := by
  refine ⟨rfl, rfl, rfl⟩

/-- C2 amended: the loader performs no emptiness check — every successfully
decoded plain_text file yields exactly one Document whose text is the decoded
content, even when that content is empty, and no per-file error is recorded
for it. -/
theorem plain_text_document_keeps_decoded_text (ex : PdfExtract) (f : UploadedFile)
    (fs : List String) (t : List Nat) (htype : f.type = "text/plain")
    (hdec : utf8Decode f.content = some t) :
    (processOneFile ex f fs).documents = [⟨t, f.name⟩] ∧
    (processOneFile ex f fs).errors = [] := by
  unfold processOneFile
  rw [if_pos htype, hdec]
  exact ⟨rfl, rfl⟩

theorem plain_text_document_keeps_decoded_text_witness :
    (⟨"empty.txt", "text/plain", []⟩ : UploadedFile).type = "text/plain" ∧
    utf8Decode (⟨"empty.txt", "text/plain", []⟩ : UploadedFile).content = some [] ∧
    ((processOneFile (fun _ => Except.ok []) ⟨"empty.txt", "text/plain", []⟩ []).documents =
        [⟨[], "empty.txt"⟩] ∧
      (processOneFile (fun _ => Except.ok []) ⟨"empty.txt", "text/plain", []⟩ []).errors = []) :=
  ⟨rfl, rfl, plain_text_document_keeps_decoded_text (fun _ => Except.ok [])
    ⟨"empty.txt", "text/plain", []⟩ [] [] rfl rfl⟩

/-- C1: evaluation at the failing input.  When the PDF-extraction call raises
for a pdf file, the `os.remove` on line 51 is never reached: after
`process_uploaded_files` returns, the staging file `temp_a.pdf` created during
the call still exists, contradicting "the temporary staging file is deleted on
every exit path".  On the success path (second conjunct) the temp file is
removed as intended, which shows the leak is specific to the failure path. -/
theorem pdf_extraction_failure_leaks_temp_file :
    "temp_a.pdf" ∈ (process_uploaded_files (fun _ => Except.error "ExtractionError")
        [⟨"a.pdf", "application/pdf", [37, 80, 68, 70]⟩] []).fs ∧
    (process_uploaded_files (fun _ => Except.ok [⟨[104], "a.pdf"⟩])
        [⟨"a.pdf", "application/pdf", [37, 80, 68, 70]⟩] []).fs = [] := by
  refine ⟨?_, rfl⟩
  show "temp_a.pdf" ∈ ["temp_a.pdf"]
  exact List.mem_singleton.mpr rfl

theorem chatSection_chat_engine (chat : ChatFn) (s : SessionState) (prompt : Option String) :
    (chatSection chat s prompt).session.chat_engine = s.chat_engine := by
  unfold chatSection
  cases h : s.chat_engine <;> cases prompt <;> simp [h]

theorem chatSection_engine_none (chat : ChatFn) (s : SessionState) (prompt : Option String)
    (h : s.chat_engine = none) : chatSection chat s prompt = ⟨s, false, false⟩ := by
  unfold chatSection
  rw [h]

theorem resetChat_chat_engine (s : SessionState) :
    (resetChat s).chat_engine = s.chat_engine := rfl

theorem uploadSection_noDocs_session (ex : PdfExtract) (files : List UploadedFile)
    (s : SessionState) (fs : List String)
    (h : (uploadSection ex files s fs).noDocsError = true) :
    (uploadSection ex files s fs).session = s := by
  simp only [uploadSection] at h ⊢
  split_ifs at h ⊢
  rfl

theorem uploadSection_engine_none (ex : PdfExtract) (files : List UploadedFile)
    (s : SessionState) (fs : List String)
    (h : (uploadSection ex files s fs).session.chat_engine = none) :
    (uploadSection ex files s fs).session = s ∧ s.chat_engine = none := by
  simp only [uploadSection] at h ⊢
  split_ifs at h ⊢
  · exact ⟨rfl, h⟩
  · exact ⟨rfl, h⟩

theorem main_engine_none (ex : PdfExtract) (chat : ChatFn) (inp : RunInput)
    (s : SessionState) (fs : List String)
    (hnone : (main ex chat inp s fs).1.chat_engine = none) :
    s.chat_engine = none ∧
      ((main ex chat inp s fs).1.messages = s.messages ∨
       (main ex chat inp s fs).1.messages = some []) := by
  unfold main at hnone ⊢
  by_cases hk : inp.apiKey = false
  · rw [if_pos hk] at hnone ⊢
    exact ⟨hnone, Or.inl rfl⟩
  · rw [if_neg hk] at hnone ⊢
    simp only at hnone ⊢
    cases hu : (uploadSection ex inp.files s fs).noDocsError with
    | true =>
      simp only [hu, if_true] at hnone ⊢
      have husess := uploadSection_noDocs_session ex inp.files s fs hu
      rw [husess] at hnone ⊢
      exact ⟨hnone, Or.inl rfl⟩
    | false =>
      simp only [hu, Bool.false_eq_true, if_false] at hnone ⊢
      set t := (uploadSection ex inp.files s fs).session with ht
      cases he : t.chat_engine with
      | some e =>
        exfalso
        by_cases hm : t.messages = none
        · rw [if_pos hm] at hnone
          split_ifs at hnone <;>
            simp only [resetChat_chat_engine, chatSection_chat_engine] at hnone <;>
            simp [he] at hnone
        · rw [if_neg hm] at hnone
          split_ifs at hnone <;>
            simp only [resetChat_chat_engine, chatSection_chat_engine] at hnone <;>
            simp [he] at hnone
      | none =>
        have he' : (uploadSection ex inp.files s fs).session.chat_engine = none := by
          rw [← ht]; exact he
        obtain ⟨husess, hsnone⟩ := uploadSection_engine_none ex inp.files s fs he'
        have hts : t = s := ht.trans husess
        refine ⟨hsnone, ?_⟩
        rw [hts]
        by_cases hm : s.messages = none
        · rw [if_pos hm]
          rw [chatSection_engine_none chat ⟨some [], none⟩ inp.prompt rfl]
          simp only [Bool.false_eq_true, if_false]
          split_ifs
          · exact Or.inr rfl
          · exact Or.inr rfl
        · rw [if_neg hm]
          rw [chatSection_engine_none chat s inp.prompt hsnone]
          simp only [Bool.false_eq_true, if_false]
          split_ifs
          · exact Or.inr rfl
          · exact Or.inl rfl

theorem reachable_engine_none_messages (ex : PdfExtract) (chat : ChatFn)
    (s : SessionState) (fs : List String) (hr : Reachable ex chat s fs) :
    s.chat_engine = none → s.messages = none ∨ s.messages = some [] := by
  induction hr with
  | init fs0 => intro _; exact Or.inl rfl
  | step inp s fs hr ih =>
    intro hnone
    obtain ⟨hsnone, hmsg⟩ := main_engine_none ex chat inp s fs hnone
    rcases hmsg with hmsg | hmsg
    · rw [hmsg]; exact ih hsnone
    · exact Or.inr hmsg

/-- C6: while a session is uninitialized (no chat engine in the session
state), the transcript is empty in every reachable such state, and every
script run offers no chat input — an attempted turn changes nothing
(`st.info` is shown instead of the input box). -/
theorem uninitialized_rejects_turns (ex : PdfExtract) (chat : ChatFn)
    (s : SessionState) (fs : List String) (hr : Reachable ex chat s fs)
    (hnone : s.chat_engine = none) :
    s.messages.getD [] = [] ∧
    ∀ prompt, (chatSection chat s prompt).inputOffered = false ∧
      (chatSection chat s prompt).session = s := by
  constructor
  · rcases reachable_engine_none_messages ex chat s fs hr hnone with h | h <;> rw [h] <;> rfl
  · intro prompt
    rw [chatSection_engine_none chat s prompt hnone]
    exact ⟨rfl, rfl⟩

theorem uninitialized_rejects_turns_witness :
    Reachable (fun _ => Except.ok []) (fun _ _ => Except.ok "ans")
      ⟨none, none⟩ [] ∧
    (SessionState.chat_engine ⟨none, none⟩ = none) ∧
    ((Option.getD (SessionState.messages ⟨none, none⟩) [] = [] ∧
      ∀ prompt, (chatSection (fun _ _ => Except.ok "ans") ⟨none, none⟩ prompt).inputOffered = false ∧
        (chatSection (fun _ _ => Except.ok "ans") ⟨none, none⟩ prompt).session = ⟨none, none⟩)) :=
  ⟨Reachable.init [], rfl,
   uninitialized_rejects_turns (fun _ => Except.ok []) (fun _ _ => Except.ok "ans")
     ⟨none, none⟩ [] (Reachable.init []) rfl⟩

/-- C7: the reset operation sets the transcript to the empty list (length 0)
and changes nothing else — the attached chat engine (hence its index), if
any, is the same object afterwards and is not rebuilt. -/
theorem reset_clears_transcript_only (s : SessionState) :
    (resetChat s).messages = some [] ∧
    ((resetChat s).messages.getD []).length = 0 ∧
    (resetChat s).chat_engine = s.chat_engine :=
  ⟨rfl, rfl, rfl⟩

/-- C3 counterexample: when the Response Generator call raises, the turn block
leaves the transcript CHANGED — starting from an empty transcript, a failed
turn on prompt "hi" leaves exactly the half-written user-only entry, so the
claim "the session transcript is unchanged by that turn" is false. -/
theorem failed_turn_changes_transcript :
    (chatTurn (fun _ _ => Except.error "UpstreamError")
        (initialize_chat_engine (vectorStoreIndexFromDocuments [])) [] "hi").1 ≠ [] ∧
    (chatTurn (fun _ _ => Except.error "UpstreamError")
        (initialize_chat_engine (vectorStoreIndexFromDocuments [])) [] "hi").1 =
      [⟨"user", "hi"⟩] := by
  refine ⟨?_, rfl⟩
  intro h
  exact List.cons_ne_nil _ _ h

/-- C3 amended: when the Response Generator call fails, the user entry —
appended on line 119 before the call — remains, and no assistant entry is
appended: the transcript after the failed turn is the old transcript plus a
single user-only (half-written) entry, and no answer is produced. -/
theorem failed_turn_keeps_user_entry (chat : ChatFn) (engine : ChatEngine)
    (msgs : List Message) (prompt : String) (e : String)
    (h : chat engine prompt = Except.error e) :
    (chatTurn chat engine msgs prompt).1 = msgs ++ [⟨"user", prompt⟩] ∧
    (chatTurn chat engine msgs prompt).2 = none := by
  unfold chatTurn
  rw [h]
  exact ⟨rfl, rfl⟩

theorem failed_turn_keeps_user_entry_witness :
    ((fun _ _ => Except.error "UpstreamError") : ChatFn)
        (initialize_chat_engine (vectorStoreIndexFromDocuments [])) "hi" =
      Except.error "UpstreamError" ∧
    ((chatTurn (fun _ _ => Except.error "UpstreamError")
        (initialize_chat_engine (vectorStoreIndexFromDocuments [])) [] "hi").1 =
      [] ++ [⟨"user", "hi"⟩] ∧
     (chatTurn (fun _ _ => Except.error "UpstreamError")
        (initialize_chat_engine (vectorStoreIndexFromDocuments [])) [] "hi").2 = none) :=
  ⟨rfl, failed_turn_keeps_user_entry (fun _ _ => Except.error "UpstreamError")
    (initialize_chat_engine (vectorStoreIndexFromDocuments [])) [] "hi" "UpstreamError" rfl⟩

/-- C9: a successful user turn appends exactly two entries in order — the
user entry then the assistant entry — and consequently two successful turns
starting from an empty transcript leave exactly 4 entries alternating
user/assistant (2 user, 2 assistant). -/
theorem successful_turn_appends_two (chat : ChatFn) (engine : ChatEngine)
    (msgs : List Message) (prompt answer : String)
    (h : chat engine prompt = Except.ok answer) :
    (chatTurn chat engine msgs prompt).1 =
      msgs ++ [⟨"user", prompt⟩, ⟨"assistant", answer⟩] ∧
    (∀ p1 a1 p2 a2, chat engine p1 = Except.ok a1 → chat engine p2 = Except.ok a2 →
      (chatTurn chat engine (chatTurn chat engine [] p1).1 p2).1 =
        [⟨"user", p1⟩, ⟨"assistant", a1⟩, ⟨"user", p2⟩, ⟨"assistant", a2⟩]) := by
  constructor
  · unfold chatTurn
    rw [h]
    simp
  · intro p1 a1 p2 a2 h1 h2
    unfold chatTurn
    rw [h1, h2]
    simp

theorem successful_turn_appends_two_witness :
    ((fun _ _ => Except.ok "blue") : ChatFn)
        (initialize_chat_engine (vectorStoreIndexFromDocuments [])) "q" =
      Except.ok "blue" ∧
    ((chatTurn (fun _ _ => Except.ok "blue")
        (initialize_chat_engine (vectorStoreIndexFromDocuments [])) [] "q").1 =
      [] ++ [⟨"user", "q"⟩, ⟨"assistant", "blue"⟩] ∧
    (∀ p1 a1 p2 a2,
      ((fun _ _ => Except.ok "blue") : ChatFn)
          (initialize_chat_engine (vectorStoreIndexFromDocuments [])) p1 = Except.ok a1 →
      ((fun _ _ => Except.ok "blue") : ChatFn)
          (initialize_chat_engine (vectorStoreIndexFromDocuments [])) p2 = Except.ok a2 →
      (chatTurn (fun _ _ => Except.ok "blue")
          (initialize_chat_engine (vectorStoreIndexFromDocuments []))
          (chatTurn (fun _ _ => Except.ok "blue")
            (initialize_chat_engine (vectorStoreIndexFromDocuments [])) [] p1).1 p2).1 =
        [⟨"user", p1⟩, ⟨"assistant", a1⟩, ⟨"user", p2⟩, ⟨"assistant", a2⟩])) :=
  ⟨rfl, successful_turn_appends_two (fun _ _ => Except.ok "blue")
    (initialize_chat_engine (vectorStoreIndexFromDocuments [])) [] "q" "blue" rfl⟩

theorem uploadSection_noDocs (ex : PdfExtract) (files : List UploadedFile)
    (s : SessionState) (fs : List String) (hne : files ≠ [])
    (hdocs : (process_uploaded_files ex files fs).documents = []) :
    uploadSection ex files s fs = ⟨s, (process_uploaded_files ex files fs).fs, true⟩ := by
  have h1 : files.isEmpty = false := by
    cases h : files.isEmpty
    · rfl
    · exact absurd (List.isEmpty_iff.mp h) hne
  simp only [uploadSection, h1, Bool.false_eq_true, if_false, hdocs]
  simp

theorem uploadSection_success (ex : PdfExtract) (files : List UploadedFile)
    (s : SessionState) (fs : List String) (hne : files ≠ [])
    (hdocs : (process_uploaded_files ex files fs).documents ≠ []) :
    uploadSection ex files s fs =
      ⟨{ s with chat_engine := some (initialize_chat_engine (vectorStoreIndexFromDocuments
           (process_uploaded_files ex files fs).documents)) },
       (process_uploaded_files ex files fs).fs, false⟩ := by
  have h1 : files.isEmpty = false := by
    cases h : files.isEmpty
    · rfl
    · exact absurd (List.isEmpty_iff.mp h) hne
  have h2 : (process_uploaded_files ex files fs).documents.isEmpty = false := by
    cases h : (process_uploaded_files ex files fs).documents.isEmpty
    · rfl
    · exact absurd (List.isEmpty_iff.mp h) hdocs
  simp only [uploadSection, h1, h2, Bool.false_eq_true, if_false]

theorem main_chat_engine_after_upload (ex : PdfExtract) (chat : ChatFn) (inp : RunInput)
    (s : SessionState) (fs : List String) (hk : inp.apiKey = true)
    (hu : (uploadSection ex inp.files s fs).noDocsError = false) :
    (main ex chat inp s fs).1.chat_engine =
      (uploadSection ex inp.files s fs).session.chat_engine := by
  unfold main
  rw [if_neg (by simp [hk])]
  simp only [hu, Bool.false_eq_true, if_false]
  split_ifs <;> simp [resetChat_chat_engine, chatSection_chat_engine]

/-- C4: when the Document Loader yields zero Documents for a nonempty upload
batch, the error branch (lines 102–104) reports the failure and returns
early, and the whole session state is unchanged — in particular an existing
chat engine from an earlier batch is retained and no new index is attached. -/
theorem empty_batch_leaves_session_unchanged (ex : PdfExtract) (chat : ChatFn)
    (inp : RunInput) (s : SessionState) (fs : List String)
    (hkey : inp.apiKey = true) (hne : inp.files ≠ [])
    (hdocs : (process_uploaded_files ex inp.files fs).documents = []) :
    (main ex chat inp s fs).1 = s ∧
    (uploadSection ex inp.files s fs).noDocsError = true := by
  have hu := uploadSection_noDocs ex inp.files s fs hne hdocs
  constructor
  · unfold main
    rw [if_neg (by simp [hkey])]
    simp [hu]
  · rw [hu]

theorem empty_batch_leaves_session_unchanged_witness :
    (RunInput.apiKey ⟨true, [⟨"a.png", "image/png", []⟩], none, false⟩ = true) ∧
    (RunInput.files ⟨true, [⟨"a.png", "image/png", []⟩], none, false⟩ ≠ []) ∧
    ((process_uploaded_files (fun _ => Except.ok [])
        (RunInput.files ⟨true, [⟨"a.png", "image/png", []⟩], none, false⟩) []).documents = []) ∧
    ((main (fun _ => Except.ok []) (fun _ _ => Except.ok "ans")
        ⟨true, [⟨"a.png", "image/png", []⟩], none, false⟩
        ⟨some [⟨"user", "x"⟩], some (initialize_chat_engine (vectorStoreIndexFromDocuments
          [⟨[104], "old.txt"⟩]))⟩ []).1 =
      ⟨some [⟨"user", "x"⟩], some (initialize_chat_engine (vectorStoreIndexFromDocuments
        [⟨[104], "old.txt"⟩]))⟩ ∧
     (uploadSection (fun _ => Except.ok [])
        (RunInput.files ⟨true, [⟨"a.png", "image/png", []⟩], none, false⟩)
        ⟨some [⟨"user", "x"⟩], some (initialize_chat_engine (vectorStoreIndexFromDocuments
          [⟨[104], "old.txt"⟩]))⟩ []).noDocsError = true) :=
  ⟨rfl, by simp,
   rfl,
   empty_batch_leaves_session_unchanged (fun _ => Except.ok []) (fun _ _ => Except.ok "ans")
     ⟨true, [⟨"a.png", "image/png", []⟩], none, false⟩
     ⟨some [⟨"user", "x"⟩], some (initialize_chat_engine (vectorStoreIndexFromDocuments
       [⟨[104], "old.txt"⟩]))⟩ [] rfl (by simp) rfl⟩

/-- C8: a successful upload batch replaces the session's engine wholesale —
afterwards the session holds exactly the engine built over that batch's
documents, independently of any engine from an earlier batch, and any
conforming retriever queried against the new engine's index only returns
chunks whose source document belongs to the new batch's documents. -/
theorem new_batch_replaces_engine (ex : PdfExtract) (chat : ChatFn)
    (inp : RunInput) (s : SessionState) (fs : List String)
    (hkey : inp.apiKey = true) (hne : inp.files ≠ [])
    (hdocs : (process_uploaded_files ex inp.files fs).documents ≠ []) :
    (main ex chat inp s fs).1.chat_engine =
      some (initialize_chat_engine (vectorStoreIndexFromDocuments
        (process_uploaded_files ex inp.files fs).documents)) ∧
    (∀ retrieve, RetrieverConforms retrieve → ∀ e,
      (main ex chat inp s fs).1.chat_engine = some e →
      ∀ q k c, c ∈ retrieve e.index q k →
        c.source ∈ (process_uploaded_files ex inp.files fs).documents) := by
  have hu := uploadSection_success ex inp.files s fs hne hdocs
  have hke : (main ex chat inp s fs).1.chat_engine =
      some (initialize_chat_engine (vectorStoreIndexFromDocuments
        (process_uploaded_files ex inp.files fs).documents)) := by
    rw [main_chat_engine_after_upload ex chat inp s fs hkey (by rw [hu]), hu]
  refine ⟨hke, ?_⟩
  intro retrieve hconf e he q k c hc
  rw [hke] at he
  injection he with he
  subst he
  exact hconf _ q k c hc

theorem new_batch_replaces_engine_witness :
    (RunInput.apiKey ⟨true, [⟨"a.txt", "text/plain", [104]⟩], none, false⟩ = true) ∧
    (RunInput.files ⟨true, [⟨"a.txt", "text/plain", [104]⟩], none, false⟩ ≠ []) ∧
    ((process_uploaded_files (fun _ => Except.ok [])
        (RunInput.files ⟨true, [⟨"a.txt", "text/plain", [104]⟩], none, false⟩) []).documents ≠ []) ∧
    ((main (fun _ => Except.ok []) (fun _ _ => Except.ok "ans")
        ⟨true, [⟨"a.txt", "text/plain", [104]⟩], none, false⟩
        ⟨none, some (initialize_chat_engine (vectorStoreIndexFromDocuments
          [⟨[111], "old.txt"⟩]))⟩ []).1.chat_engine =
      some (initialize_chat_engine (vectorStoreIndexFromDocuments
        (process_uploaded_files (fun _ => Except.ok [])
          (RunInput.files ⟨true, [⟨"a.txt", "text/plain", [104]⟩], none, false⟩) []).documents)) ∧
    (∀ retrieve, RetrieverConforms retrieve → ∀ e,
      (main (fun _ => Except.ok []) (fun _ _ => Except.ok "ans")
        ⟨true, [⟨"a.txt", "text/plain", [104]⟩], none, false⟩
        ⟨none, some (initialize_chat_engine (vectorStoreIndexFromDocuments
          [⟨[111], "old.txt"⟩]))⟩ []).1.chat_engine = some e →
      ∀ q k c, c ∈ retrieve e.index q k →
        c.source ∈ (process_uploaded_files (fun _ => Except.ok [])
          (RunInput.files ⟨true, [⟨"a.txt", "text/plain", [104]⟩], none, false⟩) []).documents)) :=
  ⟨rfl, by simp, by decide,
   new_batch_replaces_engine (fun _ => Except.ok []) (fun _ _ => Except.ok "ans")
     ⟨true, [⟨"a.txt", "text/plain", [104]⟩], none, false⟩
     ⟨none, some (initialize_chat_engine (vectorStoreIndexFromDocuments
       [⟨[111], "old.txt"⟩]))⟩ [] rfl (by simp) (by decide)⟩

end LlamaChat